import Mathlib

set_option maxRecDepth 8000

/-!
Verification development for the Quantitative-Physics-Portfolio repository.

The file shallowly embeds the two scripts of the repository:

* `cosmic_background_analysis.py` — ingestion of the COBE/FIRAS monopole
  table (remote fetch with a hardcoded local fallback), the Planck-law model
  function, and the `run_pipeline` fitting step, inside namespace `Cobe`;
* `random_walk_vectorized.py` — the vectorized 2D random-walk simulator,
  inside namespace `RandomWalk`.

Numbers are embedded as exact rationals (`ℚ`); the two points where the
Python code meaningfully interacts with IEEE-754 special values
(`np.expm1` overflowing to `inf`, and division by an `inf` denominator)
are modelled by the explicit extended-value type `Cobe.NVal`.
External effects (the HTTP request, `np.random`, `scipy.optimize.curve_fit`)
are modelled as explicit inputs, so every definition stays a pure,
executable function of its inputs.
-/

namespace Cobe

/-! ### Observation table (the pandas DataFrame with columns nu, I, sigma) -/

/-- One row of the observation table: `nu` (frequency, cm⁻¹), `I`
(intensity, MJy/sr), `sigma` (uncertainty column as parsed, kJy/sr). -/
structure Obs where
  nu : ℚ
  I : ℚ
  sigma : ℚ
deriving DecidableEq

/-! ### Whitespace-delimited numeric parsing
(embedding of the two `pd.read_csv(..., sep='\s+', ...)` calls) -/

/-- Whitespace for the `sep='\s+'` separator. -/
def isWSChar (c : Char) : Bool := c = ' ' || c = '\t'

/-- Split a character list into maximal non-whitespace tokens.
`cur` accumulates the current token in reverse. -/
def tokenizeAux : List Char → List Char → List (List Char)
  | [], cur => if cur.isEmpty then [] else [cur.reverse]
  | c :: rest, cur =>
    if isWSChar c then
      if cur.isEmpty then tokenizeAux rest []
      else cur.reverse :: tokenizeAux rest []
    else tokenizeAux rest (c :: cur)

/-- Tokenize one line on whitespace (the `sep='\s+'` behaviour). -/
def tokenize (cs : List Char) : List (List Char) := tokenizeAux cs []

/-- Truncate a line at the first `#` (the `comment='#'` behaviour of
`pd.read_csv`; a line prefixed with `#` becomes empty and is skipped). -/
def stripComment (cs : List Char) : List Char := cs.takeWhile (fun c => c ≠ '#')

/-- Numeric value of a decimal digit character. -/
def digitVal (c : Char) : Option ℕ :=
  if '0' ≤ c ∧ c ≤ '9' then some (c.toNat - '0'.toNat) else none

/-- Accumulate a base-10 natural number from digit characters. -/
def parseNatAux : List Char → ℕ → Option ℕ
  | [], acc => some acc
  | c :: rest, acc =>
    match digitVal c with
    | some d => parseNatAux rest (acc * 10 + d)
    | none => none

/-- Parse a non-empty run of decimal digits. -/
def parseDigits (cs : List Char) : Option ℕ :=
  if cs.isEmpty then none else parseNatAux cs 0

/-- Parse an unsigned decimal numeral, with an optional fractional part. -/
def parseDec (cs : List Char) : Option ℚ :=
  match cs.span (fun c => c ≠ '.') with
  | (ip, []) => (parseDigits ip).map (fun n => (n : ℚ))
  | (ip, _dot :: fp) =>
    match parseDigits ip, parseDigits fp with
    | some n, some m => some ((n : ℚ) + (m : ℚ) / (10 : ℚ) ^ fp.length)
    | _, _ => none

/-- Parse a decimal numeral with an optional sign (the numeric conversion
`pd.read_csv` applies to each used column of the data files at hand). -/
def parseNum (cs : List Char) : Option ℚ :=
  match cs with
  | '-' :: rest => (parseDec rest).map (fun q => -q)
  | '+' :: rest => parseDec rest
  | _ => parseDec cs

/-- Convert one tokenized 5-column row of the NASA raw format into an
observation: `usecols=[0, 1, 3]` keeps frequency (col 1), intensity (col 2)
and uncertainty (col 4) of the five-column layout; columns 3 and 5
(residuals, galaxy model) are not converted. -/
def parseRow5 (ts : List (List Char)) : Option Obs :=
  match ts with
  | [t0, t1, _t2, t3, _t4] =>
    match parseNum t0, parseNum t1, parseNum t3 with
    | some q0, some q1, some q3 => some ⟨q0, q1, q3⟩
    | _, _, _ => none
  | _ => none

/-- Embedding of the remote-format `pd.read_csv(io.StringIO(response.text),
sep='\s+', comment='#', header=None, usecols=[0,1,3], names=['nu','I','sigma'])`
call: per line, strip at `#`, tokenize, skip lines left without tokens,
require a 5-column numeric row otherwise; `none` models a pandas parse error. -/
def parse5col : List String → Option (List Obs)
  | [] => some []
  | l :: rest =>
    match tokenize (stripComment l.data) with
    | [] => parse5col rest
    | ts =>
      match parseRow5 ts, parse5col rest with
      | some o, some os => some (o :: os)
      | _, _ => none

/-- Convert one tokenized 3-column row of the hardcoded backup block. -/
def parseRow3 (ts : List (List Char)) : Option Obs :=
  match ts with
  | [t0, t1, t2] =>
    match parseNum t0, parseNum t1, parseNum t2 with
    | some q0, some q1, some q2 => some ⟨q0, q1, q2⟩
    | _, _, _ => none
  | _ => none

/-- Embedding of the backup `pd.read_csv(io.StringIO(raw_data), sep='\s+',
header=None, names=['nu','I','sigma'])` call (no `comment` option): per line,
tokenize, skip blank lines, require a 3-column numeric row otherwise. -/
def parse3col : List String → Option (List Obs)
  | [] => some []
  | l :: rest =>
    match tokenize l.data with
    | [] => parse3col rest
    | ts =>
      match parseRow3 ts, parse3col rest with
      | some o, some os => some (o :: os)
      | _, _ => none

/-! ### The hardcoded backup block of `get_local_backup_data` -/

/-- The `raw_data` triple-quoted string of `get_local_backup_data`, split
into its lines exactly as in the source (leading newline, 4-space
indentation, trailing indented line). -/
def backupRaw : List String := [
"",
"    2.27   200.723   14",
"    2.72   249.508   19",
"    3.18   293.024   25",
"    3.63   327.770   23",
"    4.08   354.081   22",
"    4.54   372.079   21",
"    4.99   381.493   18",
"    5.45   383.478   18",
"    5.90   378.901   16",
"    6.35   368.833   14",
"    6.81   354.063   13",
"    7.26   336.278   12",
"    7.71   316.076   11",
"    8.17   293.924   10",
"    8.62   271.432   11",
"    9.08   248.239   12",
"    9.53   225.940   14",
"    9.98   204.327   16",
"    10.44  183.262   18",
"    10.89  163.830   22",
"    11.34  145.750   22",
"    11.80  128.835   23",
"    12.25  113.568   23",
"    12.71  99.451    23",
"    13.16  87.036    22",
"    13.61  75.876    21",
"    14.07  65.766    20",
"    14.52  57.008    19",
"    14.97  49.223    19",
"    15.43  42.267    19",
"    15.88  36.352    21",
"    16.34  31.062    23",
"    16.79  26.580    26",
"    17.24  22.644    28",
"    17.70  19.255    30",
"    18.15  16.391    32",
"    18.61  13.811    33",
"    19.06  11.716    35",
"    19.51  9.921     41",
"    19.97  8.364     55",
"    20.42  7.087     88",
"    20.87  5.801     155",
"    21.33  4.523     282",
"    "]

/-- The fixed backup observation table, written out value by value
(each decimal of the source block as an exact fraction).
`backup_parse_eq` below certifies that parsing `backupRaw` yields exactly
this table. Note it has 43 rows. -/
def backupTable : List Obs := [
⟨227/100, 200723/1000, 14⟩,
⟨272/100, 249508/1000, 19⟩,
⟨318/100, 293024/1000, 25⟩,
⟨363/100, 327770/1000, 23⟩,
⟨408/100, 354081/1000, 22⟩,
⟨454/100, 372079/1000, 21⟩,
⟨499/100, 381493/1000, 18⟩,
⟨545/100, 383478/1000, 18⟩,
⟨590/100, 378901/1000, 16⟩,
⟨635/100, 368833/1000, 14⟩,
⟨681/100, 354063/1000, 13⟩,
⟨726/100, 336278/1000, 12⟩,
⟨771/100, 316076/1000, 11⟩,
⟨817/100, 293924/1000, 10⟩,
⟨862/100, 271432/1000, 11⟩,
⟨908/100, 248239/1000, 12⟩,
⟨953/100, 225940/1000, 14⟩,
⟨998/100, 204327/1000, 16⟩,
⟨1044/100, 183262/1000, 18⟩,
⟨1089/100, 163830/1000, 22⟩,
⟨1134/100, 145750/1000, 22⟩,
⟨1180/100, 128835/1000, 23⟩,
⟨1225/100, 113568/1000, 23⟩,
⟨1271/100, 99451/1000, 23⟩,
⟨1316/100, 87036/1000, 22⟩,
⟨1361/100, 75876/1000, 21⟩,
⟨1407/100, 65766/1000, 20⟩,
⟨1452/100, 57008/1000, 19⟩,
⟨1497/100, 49223/1000, 19⟩,
⟨1543/100, 42267/1000, 19⟩,
⟨1588/100, 36352/1000, 21⟩,
⟨1634/100, 31062/1000, 23⟩,
⟨1679/100, 26580/1000, 26⟩,
⟨1724/100, 22644/1000, 28⟩,
⟨1770/100, 19255/1000, 30⟩,
⟨1815/100, 16391/1000, 32⟩,
⟨1861/100, 13811/1000, 33⟩,
⟨1906/100, 11716/1000, 35⟩,
⟨1951/100, 9921/1000, 41⟩,
⟨1997/100, 8364/1000, 55⟩,
⟨2042/100, 7087/1000, 88⟩,
⟨2087/100, 5801/1000, 155⟩,
⟨2133/100, 4523/1000, 282⟩]

/-- `get_local_backup_data`: parse the hardcoded block. `none` would model a
pandas parse error (which would escape the `except` handler); it is proved
below that this call in fact yields `some backupTable`. -/
def get_local_backup_data : Option (List Obs) := parse3col backupRaw

/-! ### `fetch_cobe_data` : the network attempt with fallback -/

/-- Outcome of the `requests.get` call, the one external effect of
`fetch_cobe_data`: either an exception (network error / timeout), or a
response with a status code and a text body (given as its lines). -/
inductive Net where
  | netError
  | response (status : Nat) (body : List String)

/-- The Python exceptions relevant to the embedded code paths. -/
inductive PyErr where
  | networkError
  | connectionError
  | parseError
  | typeError
  | runtimeError
deriving DecidableEq

/-- The `try:` block of `fetch_cobe_data`: on a response with status 200
parse the body (a parse failure raises), on any other status raise
`ConnectionError("Server unavailable")`, and a `requests` exception
propagates as a network error. -/
def fetch_try (net : Net) : Except PyErr (List Obs) :=
  match net with
  | .netError => .error .networkError
  | .response status body =>
    if status = 200 then
      match parse5col body with
      | some df => .ok df
      | none => .error .parseError
    else .error .connectionError

/-- `fetch_cobe_data`: the `try:` block wrapped in `except Exception:`,
which catches every failure and returns `get_local_backup_data()` instead
(an error there would escape the handler — proved impossible below). -/
def fetch_cobe_data (net : Net) : Except PyErr (List Obs) :=
  match fetch_try net with
  | .ok df => .ok df
  | .error _ =>
    match get_local_backup_data with
    | some df => .ok df
    | none => .error .parseError


/-! ### `planck_law` : the Planck black-body model -/

/-- Extended numeric value: a finite rational or `np.inf`. `np.expm1` under
`np.errstate(over='ignore')` returns `inf` on overflow instead of raising,
and the guard line of `planck_law` substitutes `inf` for a zero denominator. -/
inductive NVal where
  | fin (q : ℚ)
  | inf
deriving DecidableEq

/-- A numpy value at the Python boundary: a scalar or a 1-d array. -/
inductive PyVal where
  | scalar (x : ℚ)
  | array (xs : List ℚ)
deriving DecidableEq

/-- Planck's constant `h = 6.626e-34` J·s, as an exact rational. -/
def planck_h : ℚ := 6626 / 10 ^ 37

/-- Speed of light `c = 2.998e10` cm/s, as an exact rational. -/
def planck_c : ℚ := 2998 * 10 ^ 7

/-- Boltzmann constant `k_B = 1.381e-23` J/K, as an exact rational. -/
def planck_kB : ℚ := 1381 / 10 ^ 26

/-- The exponent `(h * nu_hz) / (k_B * T)` with `nu_hz = nu_cm * c`. -/
def planck_exponent (nu_cm T : ℚ) : ℚ :=
  planck_h * (nu_cm * planck_c) / (planck_kB * T)

/-- The guard `denominator[denominator == 0] = np.inf`, elementwise:
a zero denominator is replaced by `inf`. -/
def denom_subst : NVal → NVal
  | .fin q => if q = 0 then .inf else .fin q
  | .inf => .inf

/-- numpy division of a finite numerator by the guarded denominator:
division by `inf` yields `0`. -/
def nval_div (a : ℚ) : NVal → ℚ
  | .fin q => a / q
  | .inf => 0

/-- One element of the array pipeline of `planck_law`: exponent, `expm1`
(supplied as the explicit function `f`, since the exact exponential is not
rational), zero-denominator guard, and `I = A * nu_hz ** 3 / denominator`. -/
def planck_point (f : ℚ → NVal) (nu_cm T A : ℚ) : ℚ :=
  nval_div (A * (nu_cm * planck_c) ^ 3) (denom_subst (f (planck_exponent nu_cm T)))

/-- `planck_law(nu_cm, T, A)`. The steps up to the denominator are
elementwise and defined for scalars and arrays alike, but the guard line
`denominator[denominator == 0] = np.inf` is an item assignment, which a
numpy scalar (`np.float64`) does not support: on a scalar input the call
raises `TypeError` at that line. On an array input the whole body is the
elementwise `planck_point`. `f` is the `np.expm1` primitive, returning
`NVal.inf` on overflow (suppressed by the `np.errstate(over='ignore')`
block rather than raised). -/
def planck_law (f : ℚ → NVal) (nu_cm : PyVal) (T A : ℚ) : Except PyErr PyVal :=
  match nu_cm with
  | .scalar x =>
    let _denominator : NVal := f (planck_exponent x T)
    .error .typeError
  | .array xs => .ok (.array (xs.map (fun x => planck_point f x T A)))

/-! ### `run_pipeline` -/

/-- The `df['sigma'].values / 1000.0` rescaling of `run_pipeline`:
the uncertainty column arrives in kJy/sr and is converted to MJy/sr (the
intensity unit) before being passed to `curve_fit` as `sigma`. -/
def pipeline_sigma (df : List Obs) : List ℚ := df.map (fun o => o.sigma / 1000)

/-- Result of a `curve_fit` call that returned: best-fit parameters
`popt = (T, A)` and the diagonal of the covariance estimate `pcov`. When
the covariance cannot be estimated (singular Jacobian), scipy fills `pcov`
with `inf` and only issues an `OptimizeWarning`, so the entries are `NVal`. -/
structure FitOutput where
  popt : ℚ × ℚ
  pcovDiag : NVal × NVal
deriving DecidableEq

/-- The behaviour of `scipy.optimize.curve_fit` on the fit inputs, supplied
as an explicit function (it is library code, iterating a transcendental
model in floating point): `.error .runtimeError` models the `RuntimeError`
raised when the least-squares solver does not converge. Arguments are
`xdata`, `ydata`, `sigma`, `p0`. -/
def FitFn : Type := List ℚ → List ℚ → List ℚ → ℚ × ℚ → Except PyErr FitOutput

/-- What `run_pipeline` reports: `T_fit`, `A_fit` and the covariance
diagonal, from which `perr = np.sqrt(np.diag(pcov))` is printed (the square
root maps finite entries to finite entries and `inf` to `inf`, so the
diagonal itself is the reported information). -/
structure PipelineReport where
  T_fit : ℚ
  A_fit : ℚ
  pcovDiag : NVal × NVal
deriving DecidableEq

/-- `run_pipeline` up to its observable fit outcome: ingest (never fails),
build `nu_data`, `I_data` and the rescaled `sigma_data`, call `curve_fit`
with `p0 = [3, 1e-15]` and `absolute_sigma=True`, and report the fitted
parameters. There is no `try/except` around `curve_fit`, so an error there
propagates and aborts the run. Plotting is outside the model. -/
def run_pipeline (cf : FitFn) (net : Net) : Except PyErr PipelineReport :=
  match fetch_cobe_data net with
  | .error e => .error e
  | .ok df =>
    let nu_data := df.map (fun o => o.nu)
    let I_data := df.map (fun o => o.I)
    let sigma_data := pipeline_sigma df
    match cf nu_data I_data sigma_data (3, 1e-15) with
    | .error e => .error e
    | .ok out => .ok ⟨out.popt.1, out.popt.2, out.pcovDiag⟩

/-- A `curve_fit` behaviour that converges but cannot estimate the
covariance: scipy returns the parameters with `pcov` filled with `inf`
(issuing only an `OptimizeWarning`); it does not raise. -/
def cfSingular : FitFn := fun _ _ _ _ => .ok ⟨(27/10, 1e-15), (.inf, .inf)⟩

/-- A `curve_fit` behaviour whose solver fails to converge: scipy raises
`RuntimeError("Optimal parameters not found: ...")`. -/
def cfNoConverge : FitFn := fun _ _ _ _ => .error .runtimeError

/-- A `curve_fit` behaviour that converges with a finite covariance. -/
def cfConverged : FitFn := fun _ _ _ _ => .ok ⟨(27/10, 1e-15), (.fin 1, .fin 1)⟩

/-! ### Predicates for the ingestion-format statements -/

/-- A line whose first character is the comment marker `#`. -/
def isCommentLine (l : String) : Bool :=
  match l.data with
  | c :: _ => c = '#'
  | [] => false

/-- A well-formed data row of the documented five-column NASA format:
after comment-stripping the line tokenizes to five columns whose used
columns (1, 2 and 4) are numeric. -/
def isDataLine5 (l : String) : Bool :=
  (parseRow5 (tokenize (stripComment l.data))).isSome

/-- How one parsed record relates to its source line: the line tokenizes to
exactly five columns, and columns 1, 2 and 4 parse to the record's
frequency, intensity and uncertainty respectively. -/
def RowRel (l : String) (o : Obs) : Prop :=
  ∃ t0 t1 t2 t3 t4, tokenize (stripComment l.data) = [t0, t1, t2, t3, t4] ∧
    parseNum t0 = some o.nu ∧ parseNum t1 = some o.I ∧ parseNum t3 = some o.sigma

/-- A small remote body in the documented format, used to instantiate the
parsing theorem: a comment header and two five-column data rows. -/
def sampleBody : List String :=
  ["# COBE FIRAS monopole", "2.27 200.723 5 14 1", "2.72 249.508 9 19 3"]

end Cobe

namespace RandomWalk

/-- The `options` list of moves `[dx, dy]`: up, down, right, left. -/
def options : List (ℤ × ℤ) := [(0, 1), (0, -1), (1, 0), (-1, 0)]

/-- Running sum with accumulator `acc`, so that
`cumsumAux 0 [a, b, c] = [a, a+b, a+b+c]`. -/
def cumsumAux (acc : ℤ) : List ℤ → List ℤ
  | [] => []
  | a :: rest => (acc + a) :: cumsumAux (acc + a) rest

/-- `np.cumsum` on a 1-d integer array. -/
def np_cumsum (l : List ℤ) : List ℤ := cumsumAux 0 l

/-- `simulate_random_walk`: the random draw
`np.random.choice(len(options), size=n_steps)` is supplied as the explicit
index list `choices` (so `n_steps = choices.length`); `steps =
np.array(options)[indices]`, each coordinate is accumulated with
`np.cumsum`, and the origin is inserted in front (`np.insert(x, 0, 0)`). -/
def simulate_random_walk (choices : List (Fin 4)) : List ℤ × List ℤ :=
  let steps := choices.map (fun i => options.get ⟨i.1, i.2⟩)
  let x := np_cumsum (steps.map Prod.fst)
  let y := np_cumsum (steps.map Prod.snd)
  (0 :: x, 0 :: y)

end RandomWalk

/-! ## Lemmas: the backup block parses to `backupTable` -/

namespace Cobe

theorem parse3col_skip (l : String) (rest : List String)
    (h : tokenize l.data = []) : parse3col (l :: rest) = parse3col rest := by
  simp [parse3col, h]

theorem parse3col_row (l : String) (rest : List String) (o : Obs)
    (h : parseRow3 (tokenize l.data) = some o) :
    parse3col (l :: rest) = (parse3col rest).map (fun os => o :: os) := by
  cases htk : tokenize l.data with
  | nil => rw [htk] at h; simp [parseRow3] at h
  | cons t ts =>
    rw [htk] at h
    cases hrest : parse3col rest <;> simp [parse3col, htk, h, hrest]

theorem parseDec_eval (cs ip fp : List Char) (n m : ℕ)
    (hspan : cs.span (fun c => c ≠ '.') = (ip, '.' :: fp))
    (hip : parseDigits ip = some n) (hfp : parseDigits fp = some m) :
    parseDec cs = some (((n : ℕ) : ℚ) + ((m : ℕ) : ℚ) / (10 : ℚ) ^ fp.length) := by
  rw [List.span_eq_take_drop, Prod.mk.injEq] at hspan
  obtain ⟨h1, h2⟩ := hspan
  simp only [ne_eq, decide_not] at h1 h2
  simp [parseDec, List.span_eq_take_drop, h1, h2, hip, hfp]

theorem parseDec_eval_int (cs : List Char) (n : ℕ)
    (hspan : cs.span (fun c => c ≠ '.') = (cs, []))
    (h : parseDigits cs = some n) :
    parseDec cs = some ((n : ℕ) : ℚ) := by
  rw [List.span_eq_take_drop, Prod.mk.injEq] at hspan
  obtain ⟨h1, h2⟩ := hspan
  simp only [ne_eq, decide_not] at h1 h2
  simp [parseDec, List.span_eq_take_drop, h1, h2, h]

theorem backupRow0 : parseRow3 (tokenize "    2.27   200.723   14".data) =
    some ⟨227/100, 200723/1000, 14⟩ := by
  have t : tokenize "    2.27   200.723   14".data = [['2','.','2','7'],['2','0','0','.','7','2','3'],['1','4']] := by decide
  have p0 : parseNum ['2','.','2','7'] = some (((2 : ℕ) : ℚ) + ((27 : ℕ) : ℚ) / (10 : ℚ) ^ (['2','7'] : List Char).length) :=
    parseDec_eval ['2','.','2','7'] ['2'] ['2','7'] 2 27 (by decide) (by decide) (by decide)
  have p1 : parseNum ['2','0','0','.','7','2','3'] = some (((200 : ℕ) : ℚ) + ((723 : ℕ) : ℚ) / (10 : ℚ) ^ (['7','2','3'] : List Char).length) :=
    parseDec_eval ['2','0','0','.','7','2','3'] ['2','0','0'] ['7','2','3'] 200 723 (by decide) (by decide) (by decide)
  have p2 : parseNum ['1','4'] = some ((14 : ℕ) : ℚ) :=
    parseDec_eval_int ['1','4'] 14 (by decide) (by decide)
  rw [t]
  simp only [parseRow3, p0, p1, p2]
  norm_num

theorem backupRow1 : parseRow3 (tokenize "    2.72   249.508   19".data) =
    some ⟨272/100, 249508/1000, 19⟩ := by
  have t : tokenize "    2.72   249.508   19".data = [['2','.','7','2'],['2','4','9','.','5','0','8'],['1','9']] := by decide
  have p0 : parseNum ['2','.','7','2'] = some (((2 : ℕ) : ℚ) + ((72 : ℕ) : ℚ) / (10 : ℚ) ^ (['7','2'] : List Char).length) :=
    parseDec_eval ['2','.','7','2'] ['2'] ['7','2'] 2 72 (by decide) (by decide) (by decide)
  have p1 : parseNum ['2','4','9','.','5','0','8'] = some (((249 : ℕ) : ℚ) + ((508 : ℕ) : ℚ) / (10 : ℚ) ^ (['5','0','8'] : List Char).length) :=
    parseDec_eval ['2','4','9','.','5','0','8'] ['2','4','9'] ['5','0','8'] 249 508 (by decide) (by decide) (by decide)
  have p2 : parseNum ['1','9'] = some ((19 : ℕ) : ℚ) :=
    parseDec_eval_int ['1','9'] 19 (by decide) (by decide)
  rw [t]
  simp only [parseRow3, p0, p1, p2]
  norm_num

theorem backupRow2 : parseRow3 (tokenize "    3.18   293.024   25".data) =
    some ⟨318/100, 293024/1000, 25⟩ := by
  have t : tokenize "    3.18   293.024   25".data = [['3','.','1','8'],['2','9','3','.','0','2','4'],['2','5']] := by decide
  have p0 : parseNum ['3','.','1','8'] = some (((3 : ℕ) : ℚ) + ((18 : ℕ) : ℚ) / (10 : ℚ) ^ (['1','8'] : List Char).length) :=
    parseDec_eval ['3','.','1','8'] ['3'] ['1','8'] 3 18 (by decide) (by decide) (by decide)
  have p1 : parseNum ['2','9','3','.','0','2','4'] = some (((293 : ℕ) : ℚ) + ((24 : ℕ) : ℚ) / (10 : ℚ) ^ (['0','2','4'] : List Char).length) :=
    parseDec_eval ['2','9','3','.','0','2','4'] ['2','9','3'] ['0','2','4'] 293 24 (by decide) (by decide) (by decide)
  have p2 : parseNum ['2','5'] = some ((25 : ℕ) : ℚ) :=
    parseDec_eval_int ['2','5'] 25 (by decide) (by decide)
  rw [t]
  simp only [parseRow3, p0, p1, p2]
  norm_num

theorem backupRow3 : parseRow3 (tokenize "    3.63   327.770   23".data) =
    some ⟨363/100, 327770/1000, 23⟩ := by
  have t : tokenize "    3.63   327.770   23".data = [['3','.','6','3'],['3','2','7','.','7','7','0'],['2','3']] := by decide
  have p0 : parseNum ['3','.','6','3'] = some (((3 : ℕ) : ℚ) + ((63 : ℕ) : ℚ) / (10 : ℚ) ^ (['6','3'] : List Char).length) :=
    parseDec_eval ['3','.','6','3'] ['3'] ['6','3'] 3 63 (by decide) (by decide) (by decide)
  have p1 : parseNum ['3','2','7','.','7','7','0'] = some (((327 : ℕ) : ℚ) + ((770 : ℕ) : ℚ) / (10 : ℚ) ^ (['7','7','0'] : List Char).length) :=
    parseDec_eval ['3','2','7','.','7','7','0'] ['3','2','7'] ['7','7','0'] 327 770 (by decide) (by decide) (by decide)
  have p2 : parseNum ['2','3'] = some ((23 : ℕ) : ℚ) :=
    parseDec_eval_int ['2','3'] 23 (by decide) (by decide)
  rw [t]
  simp only [parseRow3, p0, p1, p2]
  norm_num

theorem backupRow4 : parseRow3 (tokenize "    4.08   354.081   22".data) =
    some ⟨408/100, 354081/1000, 22⟩ := by
  have t : tokenize "    4.08   354.081   22".data = [['4','.','0','8'],['3','5','4','.','0','8','1'],['2','2']] := by decide
  have p0 : parseNum ['4','.','0','8'] = some (((4 : ℕ) : ℚ) + ((8 : ℕ) : ℚ) / (10 : ℚ) ^ (['0','8'] : List Char).length) :=
    parseDec_eval ['4','.','0','8'] ['4'] ['0','8'] 4 8 (by decide) (by decide) (by decide)
  have p1 : parseNum ['3','5','4','.','0','8','1'] = some (((354 : ℕ) : ℚ) + ((81 : ℕ) : ℚ) / (10 : ℚ) ^ (['0','8','1'] : List Char).length) :=
    parseDec_eval ['3','5','4','.','0','8','1'] ['3','5','4'] ['0','8','1'] 354 81 (by decide) (by decide) (by decide)
  have p2 : parseNum ['2','2'] = some ((22 : ℕ) : ℚ) :=
    parseDec_eval_int ['2','2'] 22 (by decide) (by decide)
  rw [t]
  simp only [parseRow3, p0, p1, p2]
  norm_num

theorem backupRow5 : parseRow3 (tokenize "    4.54   372.079   21".data) =
    some ⟨454/100, 372079/1000, 21⟩ := by
  have t : tokenize "    4.54   372.079   21".data = [['4','.','5','4'],['3','7','2','.','0','7','9'],['2','1']] := by decide
  have p0 : parseNum ['4','.','5','4'] = some (((4 : ℕ) : ℚ) + ((54 : ℕ) : ℚ) / (10 : ℚ) ^ (['5','4'] : List Char).length) :=
    parseDec_eval ['4','.','5','4'] ['4'] ['5','4'] 4 54 (by decide) (by decide) (by decide)
  have p1 : parseNum ['3','7','2','.','0','7','9'] = some (((372 : ℕ) : ℚ) + ((79 : ℕ) : ℚ) / (10 : ℚ) ^ (['0','7','9'] : List Char).length) :=
    parseDec_eval ['3','7','2','.','0','7','9'] ['3','7','2'] ['0','7','9'] 372 79 (by decide) (by decide) (by decide)
  have p2 : parseNum ['2','1'] = some ((21 : ℕ) : ℚ) :=
    parseDec_eval_int ['2','1'] 21 (by decide) (by decide)
  rw [t]
  simp only [parseRow3, p0, p1, p2]
  norm_num

theorem backupRow6 : parseRow3 (tokenize "    4.99   381.493   18".data) =
    some ⟨499/100, 381493/1000, 18⟩ := by
  have t : tokenize "    4.99   381.493   18".data = [['4','.','9','9'],['3','8','1','.','4','9','3'],['1','8']] := by decide
  have p0 : parseNum ['4','.','9','9'] = some (((4 : ℕ) : ℚ) + ((99 : ℕ) : ℚ) / (10 : ℚ) ^ (['9','9'] : List Char).length) :=
    parseDec_eval ['4','.','9','9'] ['4'] ['9','9'] 4 99 (by decide) (by decide) (by decide)
  have p1 : parseNum ['3','8','1','.','4','9','3'] = some (((381 : ℕ) : ℚ) + ((493 : ℕ) : ℚ) / (10 : ℚ) ^ (['4','9','3'] : List Char).length) :=
    parseDec_eval ['3','8','1','.','4','9','3'] ['3','8','1'] ['4','9','3'] 381 493 (by decide) (by decide) (by decide)
  have p2 : parseNum ['1','8'] = some ((18 : ℕ) : ℚ) :=
    parseDec_eval_int ['1','8'] 18 (by decide) (by decide)
  rw [t]
  simp only [parseRow3, p0, p1, p2]
  norm_num

theorem backupRow7 : parseRow3 (tokenize "    5.45   383.478   18".data) =
    some ⟨545/100, 383478/1000, 18⟩ := by
  have t : tokenize "    5.45   383.478   18".data = [['5','.','4','5'],['3','8','3','.','4','7','8'],['1','8']] := by decide
  have p0 : parseNum ['5','.','4','5'] = some (((5 : ℕ) : ℚ) + ((45 : ℕ) : ℚ) / (10 : ℚ) ^ (['4','5'] : List Char).length) :=
    parseDec_eval ['5','.','4','5'] ['5'] ['4','5'] 5 45 (by decide) (by decide) (by decide)
  have p1 : parseNum ['3','8','3','.','4','7','8'] = some (((383 : ℕ) : ℚ) + ((478 : ℕ) : ℚ) / (10 : ℚ) ^ (['4','7','8'] : List Char).length) :=
    parseDec_eval ['3','8','3','.','4','7','8'] ['3','8','3'] ['4','7','8'] 383 478 (by decide) (by decide) (by decide)
  have p2 : parseNum ['1','8'] = some ((18 : ℕ) : ℚ) :=
    parseDec_eval_int ['1','8'] 18 (by decide) (by decide)
  rw [t]
  simp only [parseRow3, p0, p1, p2]
  norm_num

theorem backupRow8 : parseRow3 (tokenize "    5.90   378.901   16".data) =
    some ⟨590/100, 378901/1000, 16⟩ := by
  have t : tokenize "    5.90   378.901   16".data = [['5','.','9','0'],['3','7','8','.','9','0','1'],['1','6']] := by decide
  have p0 : parseNum ['5','.','9','0'] = some (((5 : ℕ) : ℚ) + ((90 : ℕ) : ℚ) / (10 : ℚ) ^ (['9','0'] : List Char).length) :=
    parseDec_eval ['5','.','9','0'] ['5'] ['9','0'] 5 90 (by decide) (by decide) (by decide)
  have p1 : parseNum ['3','7','8','.','9','0','1'] = some (((378 : ℕ) : ℚ) + ((901 : ℕ) : ℚ) / (10 : ℚ) ^ (['9','0','1'] : List Char).length) :=
    parseDec_eval ['3','7','8','.','9','0','1'] ['3','7','8'] ['9','0','1'] 378 901 (by decide) (by decide) (by decide)
  have p2 : parseNum ['1','6'] = some ((16 : ℕ) : ℚ) :=
    parseDec_eval_int ['1','6'] 16 (by decide) (by decide)
  rw [t]
  simp only [parseRow3, p0, p1, p2]
  norm_num

theorem backupRow9 : parseRow3 (tokenize "    6.35   368.833   14".data) =
    some ⟨635/100, 368833/1000, 14⟩ := by
  have t : tokenize "    6.35   368.833   14".data = [['6','.','3','5'],['3','6','8','.','8','3','3'],['1','4']] := by decide
  have p0 : parseNum ['6','.','3','5'] = some (((6 : ℕ) : ℚ) + ((35 : ℕ) : ℚ) / (10 : ℚ) ^ (['3','5'] : List Char).length) :=
    parseDec_eval ['6','.','3','5'] ['6'] ['3','5'] 6 35 (by decide) (by decide) (by decide)
  have p1 : parseNum ['3','6','8','.','8','3','3'] = some (((368 : ℕ) : ℚ) + ((833 : ℕ) : ℚ) / (10 : ℚ) ^ (['8','3','3'] : List Char).length) :=
    parseDec_eval ['3','6','8','.','8','3','3'] ['3','6','8'] ['8','3','3'] 368 833 (by decide) (by decide) (by decide)
  have p2 : parseNum ['1','4'] = some ((14 : ℕ) : ℚ) :=
    parseDec_eval_int ['1','4'] 14 (by decide) (by decide)
  rw [t]
  simp only [parseRow3, p0, p1, p2]
  norm_num

theorem backupRow10 : parseRow3 (tokenize "    6.81   354.063   13".data) =
    some ⟨681/100, 354063/1000, 13⟩ := by
  have t : tokenize "    6.81   354.063   13".data = [['6','.','8','1'],['3','5','4','.','0','6','3'],['1','3']] := by decide
  have p0 : parseNum ['6','.','8','1'] = some (((6 : ℕ) : ℚ) + ((81 : ℕ) : ℚ) / (10 : ℚ) ^ (['8','1'] : List Char).length) :=
    parseDec_eval ['6','.','8','1'] ['6'] ['8','1'] 6 81 (by decide) (by decide) (by decide)
  have p1 : parseNum ['3','5','4','.','0','6','3'] = some (((354 : ℕ) : ℚ) + ((63 : ℕ) : ℚ) / (10 : ℚ) ^ (['0','6','3'] : List Char).length) :=
    parseDec_eval ['3','5','4','.','0','6','3'] ['3','5','4'] ['0','6','3'] 354 63 (by decide) (by decide) (by decide)
  have p2 : parseNum ['1','3'] = some ((13 : ℕ) : ℚ) :=
    parseDec_eval_int ['1','3'] 13 (by decide) (by decide)
  rw [t]
  simp only [parseRow3, p0, p1, p2]
  norm_num

theorem backupRow11 : parseRow3 (tokenize "    7.26   336.278   12".data) =
    some ⟨726/100, 336278/1000, 12⟩ := by
  have t : tokenize "    7.26   336.278   12".data = [['7','.','2','6'],['3','3','6','.','2','7','8'],['1','2']] := by decide
  have p0 : parseNum ['7','.','2','6'] = some (((7 : ℕ) : ℚ) + ((26 : ℕ) : ℚ) / (10 : ℚ) ^ (['2','6'] : List Char).length) :=
    parseDec_eval ['7','.','2','6'] ['7'] ['2','6'] 7 26 (by decide) (by decide) (by decide)
  have p1 : parseNum ['3','3','6','.','2','7','8'] = some (((336 : ℕ) : ℚ) + ((278 : ℕ) : ℚ) / (10 : ℚ) ^ (['2','7','8'] : List Char).length) :=
    parseDec_eval ['3','3','6','.','2','7','8'] ['3','3','6'] ['2','7','8'] 336 278 (by decide) (by decide) (by decide)
  have p2 : parseNum ['1','2'] = some ((12 : ℕ) : ℚ) :=
    parseDec_eval_int ['1','2'] 12 (by decide) (by decide)
  rw [t]
  simp only [parseRow3, p0, p1, p2]
  norm_num

theorem backupRow12 : parseRow3 (tokenize "    7.71   316.076   11".data) =
    some ⟨771/100, 316076/1000, 11⟩ := by
  have t : tokenize "    7.71   316.076   11".data = [['7','.','7','1'],['3','1','6','.','0','7','6'],['1','1']] := by decide
  have p0 : parseNum ['7','.','7','1'] = some (((7 : ℕ) : ℚ) + ((71 : ℕ) : ℚ) / (10 : ℚ) ^ (['7','1'] : List Char).length) :=
    parseDec_eval ['7','.','7','1'] ['7'] ['7','1'] 7 71 (by decide) (by decide) (by decide)
  have p1 : parseNum ['3','1','6','.','0','7','6'] = some (((316 : ℕ) : ℚ) + ((76 : ℕ) : ℚ) / (10 : ℚ) ^ (['0','7','6'] : List Char).length) :=
    parseDec_eval ['3','1','6','.','0','7','6'] ['3','1','6'] ['0','7','6'] 316 76 (by decide) (by decide) (by decide)
  have p2 : parseNum ['1','1'] = some ((11 : ℕ) : ℚ) :=
    parseDec_eval_int ['1','1'] 11 (by decide) (by decide)
  rw [t]
  simp only [parseRow3, p0, p1, p2]
  norm_num

theorem backupRow13 : parseRow3 (tokenize "    8.17   293.924   10".data) =
    some ⟨817/100, 293924/1000, 10⟩ := by
  have t : tokenize "    8.17   293.924   10".data = [['8','.','1','7'],['2','9','3','.','9','2','4'],['1','0']] := by decide
  have p0 : parseNum ['8','.','1','7'] = some (((8 : ℕ) : ℚ) + ((17 : ℕ) : ℚ) / (10 : ℚ) ^ (['1','7'] : List Char).length) :=
    parseDec_eval ['8','.','1','7'] ['8'] ['1','7'] 8 17 (by decide) (by decide) (by decide)
  have p1 : parseNum ['2','9','3','.','9','2','4'] = some (((293 : ℕ) : ℚ) + ((924 : ℕ) : ℚ) / (10 : ℚ) ^ (['9','2','4'] : List Char).length) :=
    parseDec_eval ['2','9','3','.','9','2','4'] ['2','9','3'] ['9','2','4'] 293 924 (by decide) (by decide) (by decide)
  have p2 : parseNum ['1','0'] = some ((10 : ℕ) : ℚ) :=
    parseDec_eval_int ['1','0'] 10 (by decide) (by decide)
  rw [t]
  simp only [parseRow3, p0, p1, p2]
  norm_num

theorem backupRow14 : parseRow3 (tokenize "    8.62   271.432   11".data) =
    some ⟨862/100, 271432/1000, 11⟩ := by
  have t : tokenize "    8.62   271.432   11".data = [['8','.','6','2'],['2','7','1','.','4','3','2'],['1','1']] := by decide
  have p0 : parseNum ['8','.','6','2'] = some (((8 : ℕ) : ℚ) + ((62 : ℕ) : ℚ) / (10 : ℚ) ^ (['6','2'] : List Char).length) :=
    parseDec_eval ['8','.','6','2'] ['8'] ['6','2'] 8 62 (by decide) (by decide) (by decide)
  have p1 : parseNum ['2','7','1','.','4','3','2'] = some (((271 : ℕ) : ℚ) + ((432 : ℕ) : ℚ) / (10 : ℚ) ^ (['4','3','2'] : List Char).length) :=
    parseDec_eval ['2','7','1','.','4','3','2'] ['2','7','1'] ['4','3','2'] 271 432 (by decide) (by decide) (by decide)
  have p2 : parseNum ['1','1'] = some ((11 : ℕ) : ℚ) :=
    parseDec_eval_int ['1','1'] 11 (by decide) (by decide)
  rw [t]
  simp only [parseRow3, p0, p1, p2]
  norm_num

theorem backupRow15 : parseRow3 (tokenize "    9.08   248.239   12".data) =
    some ⟨908/100, 248239/1000, 12⟩ := by
  have t : tokenize "    9.08   248.239   12".data = [['9','.','0','8'],['2','4','8','.','2','3','9'],['1','2']] := by decide
  have p0 : parseNum ['9','.','0','8'] = some (((9 : ℕ) : ℚ) + ((8 : ℕ) : ℚ) / (10 : ℚ) ^ (['0','8'] : List Char).length) :=
    parseDec_eval ['9','.','0','8'] ['9'] ['0','8'] 9 8 (by decide) (by decide) (by decide)
  have p1 : parseNum ['2','4','8','.','2','3','9'] = some (((248 : ℕ) : ℚ) + ((239 : ℕ) : ℚ) / (10 : ℚ) ^ (['2','3','9'] : List Char).length) :=
    parseDec_eval ['2','4','8','.','2','3','9'] ['2','4','8'] ['2','3','9'] 248 239 (by decide) (by decide) (by decide)
  have p2 : parseNum ['1','2'] = some ((12 : ℕ) : ℚ) :=
    parseDec_eval_int ['1','2'] 12 (by decide) (by decide)
  rw [t]
  simp only [parseRow3, p0, p1, p2]
  norm_num

theorem backupRow16 : parseRow3 (tokenize "    9.53   225.940   14".data) =
    some ⟨953/100, 225940/1000, 14⟩ := by
  have t : tokenize "    9.53   225.940   14".data = [['9','.','5','3'],['2','2','5','.','9','4','0'],['1','4']] := by decide
  have p0 : parseNum ['9','.','5','3'] = some (((9 : ℕ) : ℚ) + ((53 : ℕ) : ℚ) / (10 : ℚ) ^ (['5','3'] : List Char).length) :=
    parseDec_eval ['9','.','5','3'] ['9'] ['5','3'] 9 53 (by decide) (by decide) (by decide)
  have p1 : parseNum ['2','2','5','.','9','4','0'] = some (((225 : ℕ) : ℚ) + ((940 : ℕ) : ℚ) / (10 : ℚ) ^ (['9','4','0'] : List Char).length) :=
    parseDec_eval ['2','2','5','.','9','4','0'] ['2','2','5'] ['9','4','0'] 225 940 (by decide) (by decide) (by decide)
  have p2 : parseNum ['1','4'] = some ((14 : ℕ) : ℚ) :=
    parseDec_eval_int ['1','4'] 14 (by decide) (by decide)
  rw [t]
  simp only [parseRow3, p0, p1, p2]
  norm_num

theorem backupRow17 : parseRow3 (tokenize "    9.98   204.327   16".data) =
    some ⟨998/100, 204327/1000, 16⟩ := by
  have t : tokenize "    9.98   204.327   16".data = [['9','.','9','8'],['2','0','4','.','3','2','7'],['1','6']] := by decide
  have p0 : parseNum ['9','.','9','8'] = some (((9 : ℕ) : ℚ) + ((98 : ℕ) : ℚ) / (10 : ℚ) ^ (['9','8'] : List Char).length) :=
    parseDec_eval ['9','.','9','8'] ['9'] ['9','8'] 9 98 (by decide) (by decide) (by decide)
  have p1 : parseNum ['2','0','4','.','3','2','7'] = some (((204 : ℕ) : ℚ) + ((327 : ℕ) : ℚ) / (10 : ℚ) ^ (['3','2','7'] : List Char).length) :=
    parseDec_eval ['2','0','4','.','3','2','7'] ['2','0','4'] ['3','2','7'] 204 327 (by decide) (by decide) (by decide)
  have p2 : parseNum ['1','6'] = some ((16 : ℕ) : ℚ) :=
    parseDec_eval_int ['1','6'] 16 (by decide) (by decide)
  rw [t]
  simp only [parseRow3, p0, p1, p2]
  norm_num

theorem backupRow18 : parseRow3 (tokenize "    10.44  183.262   18".data) =
    some ⟨1044/100, 183262/1000, 18⟩ := by
  have t : tokenize "    10.44  183.262   18".data = [['1','0','.','4','4'],['1','8','3','.','2','6','2'],['1','8']] := by decide
  have p0 : parseNum ['1','0','.','4','4'] = some (((10 : ℕ) : ℚ) + ((44 : ℕ) : ℚ) / (10 : ℚ) ^ (['4','4'] : List Char).length) :=
    parseDec_eval ['1','0','.','4','4'] ['1','0'] ['4','4'] 10 44 (by decide) (by decide) (by decide)
  have p1 : parseNum ['1','8','3','.','2','6','2'] = some (((183 : ℕ) : ℚ) + ((262 : ℕ) : ℚ) / (10 : ℚ) ^ (['2','6','2'] : List Char).length) :=
    parseDec_eval ['1','8','3','.','2','6','2'] ['1','8','3'] ['2','6','2'] 183 262 (by decide) (by decide) (by decide)
  have p2 : parseNum ['1','8'] = some ((18 : ℕ) : ℚ) :=
    parseDec_eval_int ['1','8'] 18 (by decide) (by decide)
  rw [t]
  simp only [parseRow3, p0, p1, p2]
  norm_num

theorem backupRow19 : parseRow3 (tokenize "    10.89  163.830   22".data) =
    some ⟨1089/100, 163830/1000, 22⟩ := by
  have t : tokenize "    10.89  163.830   22".data = [['1','0','.','8','9'],['1','6','3','.','8','3','0'],['2','2']] := by decide
  have p0 : parseNum ['1','0','.','8','9'] = some (((10 : ℕ) : ℚ) + ((89 : ℕ) : ℚ) / (10 : ℚ) ^ (['8','9'] : List Char).length) :=
    parseDec_eval ['1','0','.','8','9'] ['1','0'] ['8','9'] 10 89 (by decide) (by decide) (by decide)
  have p1 : parseNum ['1','6','3','.','8','3','0'] = some (((163 : ℕ) : ℚ) + ((830 : ℕ) : ℚ) / (10 : ℚ) ^ (['8','3','0'] : List Char).length) :=
    parseDec_eval ['1','6','3','.','8','3','0'] ['1','6','3'] ['8','3','0'] 163 830 (by decide) (by decide) (by decide)
  have p2 : parseNum ['2','2'] = some ((22 : ℕ) : ℚ) :=
    parseDec_eval_int ['2','2'] 22 (by decide) (by decide)
  rw [t]
  simp only [parseRow3, p0, p1, p2]
  norm_num

theorem backupRow20 : parseRow3 (tokenize "    11.34  145.750   22".data) =
    some ⟨1134/100, 145750/1000, 22⟩ := by
  have t : tokenize "    11.34  145.750   22".data = [['1','1','.','3','4'],['1','4','5','.','7','5','0'],['2','2']] := by decide
  have p0 : parseNum ['1','1','.','3','4'] = some (((11 : ℕ) : ℚ) + ((34 : ℕ) : ℚ) / (10 : ℚ) ^ (['3','4'] : List Char).length) :=
    parseDec_eval ['1','1','.','3','4'] ['1','1'] ['3','4'] 11 34 (by decide) (by decide) (by decide)
  have p1 : parseNum ['1','4','5','.','7','5','0'] = some (((145 : ℕ) : ℚ) + ((750 : ℕ) : ℚ) / (10 : ℚ) ^ (['7','5','0'] : List Char).length) :=
    parseDec_eval ['1','4','5','.','7','5','0'] ['1','4','5'] ['7','5','0'] 145 750 (by decide) (by decide) (by decide)
  have p2 : parseNum ['2','2'] = some ((22 : ℕ) : ℚ) :=
    parseDec_eval_int ['2','2'] 22 (by decide) (by decide)
  rw [t]
  simp only [parseRow3, p0, p1, p2]
  norm_num

theorem backupRow21 : parseRow3 (tokenize "    11.80  128.835   23".data) =
    some ⟨1180/100, 128835/1000, 23⟩ := by
  have t : tokenize "    11.80  128.835   23".data = [['1','1','.','8','0'],['1','2','8','.','8','3','5'],['2','3']] := by decide
  have p0 : parseNum ['1','1','.','8','0'] = some (((11 : ℕ) : ℚ) + ((80 : ℕ) : ℚ) / (10 : ℚ) ^ (['8','0'] : List Char).length) :=
    parseDec_eval ['1','1','.','8','0'] ['1','1'] ['8','0'] 11 80 (by decide) (by decide) (by decide)
  have p1 : parseNum ['1','2','8','.','8','3','5'] = some (((128 : ℕ) : ℚ) + ((835 : ℕ) : ℚ) / (10 : ℚ) ^ (['8','3','5'] : List Char).length) :=
    parseDec_eval ['1','2','8','.','8','3','5'] ['1','2','8'] ['8','3','5'] 128 835 (by decide) (by decide) (by decide)
  have p2 : parseNum ['2','3'] = some ((23 : ℕ) : ℚ) :=
    parseDec_eval_int ['2','3'] 23 (by decide) (by decide)
  rw [t]
  simp only [parseRow3, p0, p1, p2]
  norm_num

theorem backupRow22 : parseRow3 (tokenize "    12.25  113.568   23".data) =
    some ⟨1225/100, 113568/1000, 23⟩ := by
  have t : tokenize "    12.25  113.568   23".data = [['1','2','.','2','5'],['1','1','3','.','5','6','8'],['2','3']] := by decide
  have p0 : parseNum ['1','2','.','2','5'] = some (((12 : ℕ) : ℚ) + ((25 : ℕ) : ℚ) / (10 : ℚ) ^ (['2','5'] : List Char).length) :=
    parseDec_eval ['1','2','.','2','5'] ['1','2'] ['2','5'] 12 25 (by decide) (by decide) (by decide)
  have p1 : parseNum ['1','1','3','.','5','6','8'] = some (((113 : ℕ) : ℚ) + ((568 : ℕ) : ℚ) / (10 : ℚ) ^ (['5','6','8'] : List Char).length) :=
    parseDec_eval ['1','1','3','.','5','6','8'] ['1','1','3'] ['5','6','8'] 113 568 (by decide) (by decide) (by decide)
  have p2 : parseNum ['2','3'] = some ((23 : ℕ) : ℚ) :=
    parseDec_eval_int ['2','3'] 23 (by decide) (by decide)
  rw [t]
  simp only [parseRow3, p0, p1, p2]
  norm_num

theorem backupRow23 : parseRow3 (tokenize "    12.71  99.451    23".data) =
    some ⟨1271/100, 99451/1000, 23⟩ := by
  have t : tokenize "    12.71  99.451    23".data = [['1','2','.','7','1'],['9','9','.','4','5','1'],['2','3']] := by decide
  have p0 : parseNum ['1','2','.','7','1'] = some (((12 : ℕ) : ℚ) + ((71 : ℕ) : ℚ) / (10 : ℚ) ^ (['7','1'] : List Char).length) :=
    parseDec_eval ['1','2','.','7','1'] ['1','2'] ['7','1'] 12 71 (by decide) (by decide) (by decide)
  have p1 : parseNum ['9','9','.','4','5','1'] = some (((99 : ℕ) : ℚ) + ((451 : ℕ) : ℚ) / (10 : ℚ) ^ (['4','5','1'] : List Char).length) :=
    parseDec_eval ['9','9','.','4','5','1'] ['9','9'] ['4','5','1'] 99 451 (by decide) (by decide) (by decide)
  have p2 : parseNum ['2','3'] = some ((23 : ℕ) : ℚ) :=
    parseDec_eval_int ['2','3'] 23 (by decide) (by decide)
  rw [t]
  simp only [parseRow3, p0, p1, p2]
  norm_num

theorem backupRow24 : parseRow3 (tokenize "    13.16  87.036    22".data) =
    some ⟨1316/100, 87036/1000, 22⟩ := by
  have t : tokenize "    13.16  87.036    22".data = [['1','3','.','1','6'],['8','7','.','0','3','6'],['2','2']] := by decide
  have p0 : parseNum ['1','3','.','1','6'] = some (((13 : ℕ) : ℚ) + ((16 : ℕ) : ℚ) / (10 : ℚ) ^ (['1','6'] : List Char).length) :=
    parseDec_eval ['1','3','.','1','6'] ['1','3'] ['1','6'] 13 16 (by decide) (by decide) (by decide)
  have p1 : parseNum ['8','7','.','0','3','6'] = some (((87 : ℕ) : ℚ) + ((36 : ℕ) : ℚ) / (10 : ℚ) ^ (['0','3','6'] : List Char).length) :=
    parseDec_eval ['8','7','.','0','3','6'] ['8','7'] ['0','3','6'] 87 36 (by decide) (by decide) (by decide)
  have p2 : parseNum ['2','2'] = some ((22 : ℕ) : ℚ) :=
    parseDec_eval_int ['2','2'] 22 (by decide) (by decide)
  rw [t]
  simp only [parseRow3, p0, p1, p2]
  norm_num

theorem backupRow25 : parseRow3 (tokenize "    13.61  75.876    21".data) =
    some ⟨1361/100, 75876/1000, 21⟩ := by
  have t : tokenize "    13.61  75.876    21".data = [['1','3','.','6','1'],['7','5','.','8','7','6'],['2','1']] := by decide
  have p0 : parseNum ['1','3','.','6','1'] = some (((13 : ℕ) : ℚ) + ((61 : ℕ) : ℚ) / (10 : ℚ) ^ (['6','1'] : List Char).length) :=
    parseDec_eval ['1','3','.','6','1'] ['1','3'] ['6','1'] 13 61 (by decide) (by decide) (by decide)
  have p1 : parseNum ['7','5','.','8','7','6'] = some (((75 : ℕ) : ℚ) + ((876 : ℕ) : ℚ) / (10 : ℚ) ^ (['8','7','6'] : List Char).length) :=
    parseDec_eval ['7','5','.','8','7','6'] ['7','5'] ['8','7','6'] 75 876 (by decide) (by decide) (by decide)
  have p2 : parseNum ['2','1'] = some ((21 : ℕ) : ℚ) :=
    parseDec_eval_int ['2','1'] 21 (by decide) (by decide)
  rw [t]
  simp only [parseRow3, p0, p1, p2]
  norm_num

theorem backupRow26 : parseRow3 (tokenize "    14.07  65.766    20".data) =
    some ⟨1407/100, 65766/1000, 20⟩ := by
  have t : tokenize "    14.07  65.766    20".data = [['1','4','.','0','7'],['6','5','.','7','6','6'],['2','0']] := by decide
  have p0 : parseNum ['1','4','.','0','7'] = some (((14 : ℕ) : ℚ) + ((7 : ℕ) : ℚ) / (10 : ℚ) ^ (['0','7'] : List Char).length) :=
    parseDec_eval ['1','4','.','0','7'] ['1','4'] ['0','7'] 14 7 (by decide) (by decide) (by decide)
  have p1 : parseNum ['6','5','.','7','6','6'] = some (((65 : ℕ) : ℚ) + ((766 : ℕ) : ℚ) / (10 : ℚ) ^ (['7','6','6'] : List Char).length) :=
    parseDec_eval ['6','5','.','7','6','6'] ['6','5'] ['7','6','6'] 65 766 (by decide) (by decide) (by decide)
  have p2 : parseNum ['2','0'] = some ((20 : ℕ) : ℚ) :=
    parseDec_eval_int ['2','0'] 20 (by decide) (by decide)
  rw [t]
  simp only [parseRow3, p0, p1, p2]
  norm_num

theorem backupRow27 : parseRow3 (tokenize "    14.52  57.008    19".data) =
    some ⟨1452/100, 57008/1000, 19⟩ := by
  have t : tokenize "    14.52  57.008    19".data = [['1','4','.','5','2'],['5','7','.','0','0','8'],['1','9']] := by decide
  have p0 : parseNum ['1','4','.','5','2'] = some (((14 : ℕ) : ℚ) + ((52 : ℕ) : ℚ) / (10 : ℚ) ^ (['5','2'] : List Char).length) :=
    parseDec_eval ['1','4','.','5','2'] ['1','4'] ['5','2'] 14 52 (by decide) (by decide) (by decide)
  have p1 : parseNum ['5','7','.','0','0','8'] = some (((57 : ℕ) : ℚ) + ((8 : ℕ) : ℚ) / (10 : ℚ) ^ (['0','0','8'] : List Char).length) :=
    parseDec_eval ['5','7','.','0','0','8'] ['5','7'] ['0','0','8'] 57 8 (by decide) (by decide) (by decide)
  have p2 : parseNum ['1','9'] = some ((19 : ℕ) : ℚ) :=
    parseDec_eval_int ['1','9'] 19 (by decide) (by decide)
  rw [t]
  simp only [parseRow3, p0, p1, p2]
  norm_num

theorem backupRow28 : parseRow3 (tokenize "    14.97  49.223    19".data) =
    some ⟨1497/100, 49223/1000, 19⟩ := by
  have t : tokenize "    14.97  49.223    19".data = [['1','4','.','9','7'],['4','9','.','2','2','3'],['1','9']] := by decide
  have p0 : parseNum ['1','4','.','9','7'] = some (((14 : ℕ) : ℚ) + ((97 : ℕ) : ℚ) / (10 : ℚ) ^ (['9','7'] : List Char).length) :=
    parseDec_eval ['1','4','.','9','7'] ['1','4'] ['9','7'] 14 97 (by decide) (by decide) (by decide)
  have p1 : parseNum ['4','9','.','2','2','3'] = some (((49 : ℕ) : ℚ) + ((223 : ℕ) : ℚ) / (10 : ℚ) ^ (['2','2','3'] : List Char).length) :=
    parseDec_eval ['4','9','.','2','2','3'] ['4','9'] ['2','2','3'] 49 223 (by decide) (by decide) (by decide)
  have p2 : parseNum ['1','9'] = some ((19 : ℕ) : ℚ) :=
    parseDec_eval_int ['1','9'] 19 (by decide) (by decide)
  rw [t]
  simp only [parseRow3, p0, p1, p2]
  norm_num

theorem backupRow29 : parseRow3 (tokenize "    15.43  42.267    19".data) =
    some ⟨1543/100, 42267/1000, 19⟩ := by
  have t : tokenize "    15.43  42.267    19".data = [['1','5','.','4','3'],['4','2','.','2','6','7'],['1','9']] := by decide
  have p0 : parseNum ['1','5','.','4','3'] = some (((15 : ℕ) : ℚ) + ((43 : ℕ) : ℚ) / (10 : ℚ) ^ (['4','3'] : List Char).length) :=
    parseDec_eval ['1','5','.','4','3'] ['1','5'] ['4','3'] 15 43 (by decide) (by decide) (by decide)
  have p1 : parseNum ['4','2','.','2','6','7'] = some (((42 : ℕ) : ℚ) + ((267 : ℕ) : ℚ) / (10 : ℚ) ^ (['2','6','7'] : List Char).length) :=
    parseDec_eval ['4','2','.','2','6','7'] ['4','2'] ['2','6','7'] 42 267 (by decide) (by decide) (by decide)
  have p2 : parseNum ['1','9'] = some ((19 : ℕ) : ℚ) :=
    parseDec_eval_int ['1','9'] 19 (by decide) (by decide)
  rw [t]
  simp only [parseRow3, p0, p1, p2]
  norm_num

theorem backupRow30 : parseRow3 (tokenize "    15.88  36.352    21".data) =
    some ⟨1588/100, 36352/1000, 21⟩ := by
  have t : tokenize "    15.88  36.352    21".data = [['1','5','.','8','8'],['3','6','.','3','5','2'],['2','1']] := by decide
  have p0 : parseNum ['1','5','.','8','8'] = some (((15 : ℕ) : ℚ) + ((88 : ℕ) : ℚ) / (10 : ℚ) ^ (['8','8'] : List Char).length) :=
    parseDec_eval ['1','5','.','8','8'] ['1','5'] ['8','8'] 15 88 (by decide) (by decide) (by decide)
  have p1 : parseNum ['3','6','.','3','5','2'] = some (((36 : ℕ) : ℚ) + ((352 : ℕ) : ℚ) / (10 : ℚ) ^ (['3','5','2'] : List Char).length) :=
    parseDec_eval ['3','6','.','3','5','2'] ['3','6'] ['3','5','2'] 36 352 (by decide) (by decide) (by decide)
  have p2 : parseNum ['2','1'] = some ((21 : ℕ) : ℚ) :=
    parseDec_eval_int ['2','1'] 21 (by decide) (by decide)
  rw [t]
  simp only [parseRow3, p0, p1, p2]
  norm_num

theorem backupRow31 : parseRow3 (tokenize "    16.34  31.062    23".data) =
    some ⟨1634/100, 31062/1000, 23⟩ := by
  have t : tokenize "    16.34  31.062    23".data = [['1','6','.','3','4'],['3','1','.','0','6','2'],['2','3']] := by decide
  have p0 : parseNum ['1','6','.','3','4'] = some (((16 : ℕ) : ℚ) + ((34 : ℕ) : ℚ) / (10 : ℚ) ^ (['3','4'] : List Char).length) :=
    parseDec_eval ['1','6','.','3','4'] ['1','6'] ['3','4'] 16 34 (by decide) (by decide) (by decide)
  have p1 : parseNum ['3','1','.','0','6','2'] = some (((31 : ℕ) : ℚ) + ((62 : ℕ) : ℚ) / (10 : ℚ) ^ (['0','6','2'] : List Char).length) :=
    parseDec_eval ['3','1','.','0','6','2'] ['3','1'] ['0','6','2'] 31 62 (by decide) (by decide) (by decide)
  have p2 : parseNum ['2','3'] = some ((23 : ℕ) : ℚ) :=
    parseDec_eval_int ['2','3'] 23 (by decide) (by decide)
  rw [t]
  simp only [parseRow3, p0, p1, p2]
  norm_num

theorem backupRow32 : parseRow3 (tokenize "    16.79  26.580    26".data) =
    some ⟨1679/100, 26580/1000, 26⟩ := by
  have t : tokenize "    16.79  26.580    26".data = [['1','6','.','7','9'],['2','6','.','5','8','0'],['2','6']] := by decide
  have p0 : parseNum ['1','6','.','7','9'] = some (((16 : ℕ) : ℚ) + ((79 : ℕ) : ℚ) / (10 : ℚ) ^ (['7','9'] : List Char).length) :=
    parseDec_eval ['1','6','.','7','9'] ['1','6'] ['7','9'] 16 79 (by decide) (by decide) (by decide)
  have p1 : parseNum ['2','6','.','5','8','0'] = some (((26 : ℕ) : ℚ) + ((580 : ℕ) : ℚ) / (10 : ℚ) ^ (['5','8','0'] : List Char).length) :=
    parseDec_eval ['2','6','.','5','8','0'] ['2','6'] ['5','8','0'] 26 580 (by decide) (by decide) (by decide)
  have p2 : parseNum ['2','6'] = some ((26 : ℕ) : ℚ) :=
    parseDec_eval_int ['2','6'] 26 (by decide) (by decide)
  rw [t]
  simp only [parseRow3, p0, p1, p2]
  norm_num

theorem backupRow33 : parseRow3 (tokenize "    17.24  22.644    28".data) =
    some ⟨1724/100, 22644/1000, 28⟩ := by
  have t : tokenize "    17.24  22.644    28".data = [['1','7','.','2','4'],['2','2','.','6','4','4'],['2','8']] := by decide
  have p0 : parseNum ['1','7','.','2','4'] = some (((17 : ℕ) : ℚ) + ((24 : ℕ) : ℚ) / (10 : ℚ) ^ (['2','4'] : List Char).length) :=
    parseDec_eval ['1','7','.','2','4'] ['1','7'] ['2','4'] 17 24 (by decide) (by decide) (by decide)
  have p1 : parseNum ['2','2','.','6','4','4'] = some (((22 : ℕ) : ℚ) + ((644 : ℕ) : ℚ) / (10 : ℚ) ^ (['6','4','4'] : List Char).length) :=
    parseDec_eval ['2','2','.','6','4','4'] ['2','2'] ['6','4','4'] 22 644 (by decide) (by decide) (by decide)
  have p2 : parseNum ['2','8'] = some ((28 : ℕ) : ℚ) :=
    parseDec_eval_int ['2','8'] 28 (by decide) (by decide)
  rw [t]
  simp only [parseRow3, p0, p1, p2]
  norm_num

theorem backupRow34 : parseRow3 (tokenize "    17.70  19.255    30".data) =
    some ⟨1770/100, 19255/1000, 30⟩ := by
  have t : tokenize "    17.70  19.255    30".data = [['1','7','.','7','0'],['1','9','.','2','5','5'],['3','0']] := by decide
  have p0 : parseNum ['1','7','.','7','0'] = some (((17 : ℕ) : ℚ) + ((70 : ℕ) : ℚ) / (10 : ℚ) ^ (['7','0'] : List Char).length) :=
    parseDec_eval ['1','7','.','7','0'] ['1','7'] ['7','0'] 17 70 (by decide) (by decide) (by decide)
  have p1 : parseNum ['1','9','.','2','5','5'] = some (((19 : ℕ) : ℚ) + ((255 : ℕ) : ℚ) / (10 : ℚ) ^ (['2','5','5'] : List Char).length) :=
    parseDec_eval ['1','9','.','2','5','5'] ['1','9'] ['2','5','5'] 19 255 (by decide) (by decide) (by decide)
  have p2 : parseNum ['3','0'] = some ((30 : ℕ) : ℚ) :=
    parseDec_eval_int ['3','0'] 30 (by decide) (by decide)
  rw [t]
  simp only [parseRow3, p0, p1, p2]
  norm_num

theorem backupRow35 : parseRow3 (tokenize "    18.15  16.391    32".data) =
    some ⟨1815/100, 16391/1000, 32⟩ := by
  have t : tokenize "    18.15  16.391    32".data = [['1','8','.','1','5'],['1','6','.','3','9','1'],['3','2']] := by decide
  have p0 : parseNum ['1','8','.','1','5'] = some (((18 : ℕ) : ℚ) + ((15 : ℕ) : ℚ) / (10 : ℚ) ^ (['1','5'] : List Char).length) :=
    parseDec_eval ['1','8','.','1','5'] ['1','8'] ['1','5'] 18 15 (by decide) (by decide) (by decide)
  have p1 : parseNum ['1','6','.','3','9','1'] = some (((16 : ℕ) : ℚ) + ((391 : ℕ) : ℚ) / (10 : ℚ) ^ (['3','9','1'] : List Char).length) :=
    parseDec_eval ['1','6','.','3','9','1'] ['1','6'] ['3','9','1'] 16 391 (by decide) (by decide) (by decide)
  have p2 : parseNum ['3','2'] = some ((32 : ℕ) : ℚ) :=
    parseDec_eval_int ['3','2'] 32 (by decide) (by decide)
  rw [t]
  simp only [parseRow3, p0, p1, p2]
  norm_num

theorem backupRow36 : parseRow3 (tokenize "    18.61  13.811    33".data) =
    some ⟨1861/100, 13811/1000, 33⟩ := by
  have t : tokenize "    18.61  13.811    33".data = [['1','8','.','6','1'],['1','3','.','8','1','1'],['3','3']] := by decide
  have p0 : parseNum ['1','8','.','6','1'] = some (((18 : ℕ) : ℚ) + ((61 : ℕ) : ℚ) / (10 : ℚ) ^ (['6','1'] : List Char).length) :=
    parseDec_eval ['1','8','.','6','1'] ['1','8'] ['6','1'] 18 61 (by decide) (by decide) (by decide)
  have p1 : parseNum ['1','3','.','8','1','1'] = some (((13 : ℕ) : ℚ) + ((811 : ℕ) : ℚ) / (10 : ℚ) ^ (['8','1','1'] : List Char).length) :=
    parseDec_eval ['1','3','.','8','1','1'] ['1','3'] ['8','1','1'] 13 811 (by decide) (by decide) (by decide)
  have p2 : parseNum ['3','3'] = some ((33 : ℕ) : ℚ) :=
    parseDec_eval_int ['3','3'] 33 (by decide) (by decide)
  rw [t]
  simp only [parseRow3, p0, p1, p2]
  norm_num

theorem backupRow37 : parseRow3 (tokenize "    19.06  11.716    35".data) =
    some ⟨1906/100, 11716/1000, 35⟩ := by
  have t : tokenize "    19.06  11.716    35".data = [['1','9','.','0','6'],['1','1','.','7','1','6'],['3','5']] := by decide
  have p0 : parseNum ['1','9','.','0','6'] = some (((19 : ℕ) : ℚ) + ((6 : ℕ) : ℚ) / (10 : ℚ) ^ (['0','6'] : List Char).length) :=
    parseDec_eval ['1','9','.','0','6'] ['1','9'] ['0','6'] 19 6 (by decide) (by decide) (by decide)
  have p1 : parseNum ['1','1','.','7','1','6'] = some (((11 : ℕ) : ℚ) + ((716 : ℕ) : ℚ) / (10 : ℚ) ^ (['7','1','6'] : List Char).length) :=
    parseDec_eval ['1','1','.','7','1','6'] ['1','1'] ['7','1','6'] 11 716 (by decide) (by decide) (by decide)
  have p2 : parseNum ['3','5'] = some ((35 : ℕ) : ℚ) :=
    parseDec_eval_int ['3','5'] 35 (by decide) (by decide)
  rw [t]
  simp only [parseRow3, p0, p1, p2]
  norm_num

theorem backupRow38 : parseRow3 (tokenize "    19.51  9.921     41".data) =
    some ⟨1951/100, 9921/1000, 41⟩ := by
  have t : tokenize "    19.51  9.921     41".data = [['1','9','.','5','1'],['9','.','9','2','1'],['4','1']] := by decide
  have p0 : parseNum ['1','9','.','5','1'] = some (((19 : ℕ) : ℚ) + ((51 : ℕ) : ℚ) / (10 : ℚ) ^ (['5','1'] : List Char).length) :=
    parseDec_eval ['1','9','.','5','1'] ['1','9'] ['5','1'] 19 51 (by decide) (by decide) (by decide)
  have p1 : parseNum ['9','.','9','2','1'] = some (((9 : ℕ) : ℚ) + ((921 : ℕ) : ℚ) / (10 : ℚ) ^ (['9','2','1'] : List Char).length) :=
    parseDec_eval ['9','.','9','2','1'] ['9'] ['9','2','1'] 9 921 (by decide) (by decide) (by decide)
  have p2 : parseNum ['4','1'] = some ((41 : ℕ) : ℚ) :=
    parseDec_eval_int ['4','1'] 41 (by decide) (by decide)
  rw [t]
  simp only [parseRow3, p0, p1, p2]
  norm_num

theorem backupRow39 : parseRow3 (tokenize "    19.97  8.364     55".data) =
    some ⟨1997/100, 8364/1000, 55⟩ := by
  have t : tokenize "    19.97  8.364     55".data = [['1','9','.','9','7'],['8','.','3','6','4'],['5','5']] := by decide
  have p0 : parseNum ['1','9','.','9','7'] = some (((19 : ℕ) : ℚ) + ((97 : ℕ) : ℚ) / (10 : ℚ) ^ (['9','7'] : List Char).length) :=
    parseDec_eval ['1','9','.','9','7'] ['1','9'] ['9','7'] 19 97 (by decide) (by decide) (by decide)
  have p1 : parseNum ['8','.','3','6','4'] = some (((8 : ℕ) : ℚ) + ((364 : ℕ) : ℚ) / (10 : ℚ) ^ (['3','6','4'] : List Char).length) :=
    parseDec_eval ['8','.','3','6','4'] ['8'] ['3','6','4'] 8 364 (by decide) (by decide) (by decide)
  have p2 : parseNum ['5','5'] = some ((55 : ℕ) : ℚ) :=
    parseDec_eval_int ['5','5'] 55 (by decide) (by decide)
  rw [t]
  simp only [parseRow3, p0, p1, p2]
  norm_num

theorem backupRow40 : parseRow3 (tokenize "    20.42  7.087     88".data) =
    some ⟨2042/100, 7087/1000, 88⟩ := by
  have t : tokenize "    20.42  7.087     88".data = [['2','0','.','4','2'],['7','.','0','8','7'],['8','8']] := by decide
  have p0 : parseNum ['2','0','.','4','2'] = some (((20 : ℕ) : ℚ) + ((42 : ℕ) : ℚ) / (10 : ℚ) ^ (['4','2'] : List Char).length) :=
    parseDec_eval ['2','0','.','4','2'] ['2','0'] ['4','2'] 20 42 (by decide) (by decide) (by decide)
  have p1 : parseNum ['7','.','0','8','7'] = some (((7 : ℕ) : ℚ) + ((87 : ℕ) : ℚ) / (10 : ℚ) ^ (['0','8','7'] : List Char).length) :=
    parseDec_eval ['7','.','0','8','7'] ['7'] ['0','8','7'] 7 87 (by decide) (by decide) (by decide)
  have p2 : parseNum ['8','8'] = some ((88 : ℕ) : ℚ) :=
    parseDec_eval_int ['8','8'] 88 (by decide) (by decide)
  rw [t]
  simp only [parseRow3, p0, p1, p2]
  norm_num

theorem backupRow41 : parseRow3 (tokenize "    20.87  5.801     155".data) =
    some ⟨2087/100, 5801/1000, 155⟩ := by
  have t : tokenize "    20.87  5.801     155".data = [['2','0','.','8','7'],['5','.','8','0','1'],['1','5','5']] := by decide
  have p0 : parseNum ['2','0','.','8','7'] = some (((20 : ℕ) : ℚ) + ((87 : ℕ) : ℚ) / (10 : ℚ) ^ (['8','7'] : List Char).length) :=
    parseDec_eval ['2','0','.','8','7'] ['2','0'] ['8','7'] 20 87 (by decide) (by decide) (by decide)
  have p1 : parseNum ['5','.','8','0','1'] = some (((5 : ℕ) : ℚ) + ((801 : ℕ) : ℚ) / (10 : ℚ) ^ (['8','0','1'] : List Char).length) :=
    parseDec_eval ['5','.','8','0','1'] ['5'] ['8','0','1'] 5 801 (by decide) (by decide) (by decide)
  have p2 : parseNum ['1','5','5'] = some ((155 : ℕ) : ℚ) :=
    parseDec_eval_int ['1','5','5'] 155 (by decide) (by decide)
  rw [t]
  simp only [parseRow3, p0, p1, p2]
  norm_num

theorem backupRow42 : parseRow3 (tokenize "    21.33  4.523     282".data) =
    some ⟨2133/100, 4523/1000, 282⟩ := by
  have t : tokenize "    21.33  4.523     282".data = [['2','1','.','3','3'],['4','.','5','2','3'],['2','8','2']] := by decide
  have p0 : parseNum ['2','1','.','3','3'] = some (((21 : ℕ) : ℚ) + ((33 : ℕ) : ℚ) / (10 : ℚ) ^ (['3','3'] : List Char).length) :=
    parseDec_eval ['2','1','.','3','3'] ['2','1'] ['3','3'] 21 33 (by decide) (by decide) (by decide)
  have p1 : parseNum ['4','.','5','2','3'] = some (((4 : ℕ) : ℚ) + ((523 : ℕ) : ℚ) / (10 : ℚ) ^ (['5','2','3'] : List Char).length) :=
    parseDec_eval ['4','.','5','2','3'] ['4'] ['5','2','3'] 4 523 (by decide) (by decide) (by decide)
  have p2 : parseNum ['2','8','2'] = some ((282 : ℕ) : ℚ) :=
    parseDec_eval_int ['2','8','2'] 282 (by decide) (by decide)
  rw [t]
  simp only [parseRow3, p0, p1, p2]
  norm_num

theorem backup_parse_eq : parse3col backupRaw = some backupTable := by
  unfold backupRaw
  rw [parse3col_skip "" _ (by decide)]
  rw [parse3col_row _ _ _ backupRow0]
  rw [parse3col_row _ _ _ backupRow1]
  rw [parse3col_row _ _ _ backupRow2]
  rw [parse3col_row _ _ _ backupRow3]
  rw [parse3col_row _ _ _ backupRow4]
  rw [parse3col_row _ _ _ backupRow5]
  rw [parse3col_row _ _ _ backupRow6]
  rw [parse3col_row _ _ _ backupRow7]
  rw [parse3col_row _ _ _ backupRow8]
  rw [parse3col_row _ _ _ backupRow9]
  rw [parse3col_row _ _ _ backupRow10]
  rw [parse3col_row _ _ _ backupRow11]
  rw [parse3col_row _ _ _ backupRow12]
  rw [parse3col_row _ _ _ backupRow13]
  rw [parse3col_row _ _ _ backupRow14]
  rw [parse3col_row _ _ _ backupRow15]
  rw [parse3col_row _ _ _ backupRow16]
  rw [parse3col_row _ _ _ backupRow17]
  rw [parse3col_row _ _ _ backupRow18]
  rw [parse3col_row _ _ _ backupRow19]
  rw [parse3col_row _ _ _ backupRow20]
  rw [parse3col_row _ _ _ backupRow21]
  rw [parse3col_row _ _ _ backupRow22]
  rw [parse3col_row _ _ _ backupRow23]
  rw [parse3col_row _ _ _ backupRow24]
  rw [parse3col_row _ _ _ backupRow25]
  rw [parse3col_row _ _ _ backupRow26]
  rw [parse3col_row _ _ _ backupRow27]
  rw [parse3col_row _ _ _ backupRow28]
  rw [parse3col_row _ _ _ backupRow29]
  rw [parse3col_row _ _ _ backupRow30]
  rw [parse3col_row _ _ _ backupRow31]
  rw [parse3col_row _ _ _ backupRow32]
  rw [parse3col_row _ _ _ backupRow33]
  rw [parse3col_row _ _ _ backupRow34]
  rw [parse3col_row _ _ _ backupRow35]
  rw [parse3col_row _ _ _ backupRow36]
  rw [parse3col_row _ _ _ backupRow37]
  rw [parse3col_row _ _ _ backupRow38]
  rw [parse3col_row _ _ _ backupRow39]
  rw [parse3col_row _ _ _ backupRow40]
  rw [parse3col_row _ _ _ backupRow41]
  rw [parse3col_row _ _ _ backupRow42]
  rw [parse3col_skip "    " _ (by decide)]
  rfl

end Cobe

/-! ## Fetch: fallback behaviour -/

namespace Cobe

theorem fetch_fallback (net : Net) (e : PyErr) (h : fetch_try net = Except.error e) :
    fetch_cobe_data net = Except.ok backupTable := by
  have hb : get_local_backup_data = some backupTable := backup_parse_eq
  simp [fetch_cobe_data, h, hb]

theorem fetch_netError_eq : fetch_cobe_data Net.netError = Except.ok backupTable :=
  fetch_fallback Net.netError PyErr.networkError rfl

/-- C1: every execution of `fetch_cobe_data` returns a table to its caller;
on each failure path of the `try:` block (network error, timeout, non-200
status, parse error) the `except` handler substitutes the local backup, so
no error is surfaced. -/
theorem fetch_cobe_data_never_fails (net : Net) :
    ∃ df, fetch_cobe_data net = Except.ok df := by
  cases h : fetch_try net with
  | ok df => exact ⟨df, by simp [fetch_cobe_data, h]⟩
  | error e => exact ⟨backupTable, fetch_fallback net e h⟩

/-- C3 counterexample: on the explicit failing input (a raised network
error) `fetch_cobe_data` returns the fixed backup table, but that table has
43 observations, not 42 as claimed. -/
theorem fetch_failure_backup_43_rows :
    fetch_cobe_data Net.netError = Except.ok backupTable ∧
    backupTable.length = 43 ∧ backupTable.length ≠ 42 :=
  ⟨fetch_netError_eq, rfl, by decide⟩

/-- C3 (amended): on every failure of the network retrieval (network
error/timeout, non-200 status, or parse error), `fetch_cobe_data` returns
the fixed embedded backup table of exactly 43 observations whose
frequencies span 2.27 to 21.33, and this table is the same for every
failing call. -/
theorem fetch_failure_returns_backup (net : Net)
    (h : ∃ e, fetch_try net = Except.error e) :
    fetch_cobe_data net = Except.ok backupTable ∧
    backupTable.length = 43 ∧
    backupTable.head?.map Obs.nu = some (227 / 100) ∧
    backupTable.getLast?.map Obs.nu = some (2133 / 100) := by
  obtain ⟨e, he⟩ := h
  exact ⟨fetch_fallback net e he, rfl, rfl, rfl⟩

/-- C3 witness: the amended statement at the concrete failing input. -/
theorem fetch_failure_returns_backup_witness :
    fetch_cobe_data Net.netError = Except.ok backupTable ∧
    backupTable.length = 43 ∧
    backupTable.head?.map Obs.nu = some (227 / 100) ∧
    backupTable.getLast?.map Obs.nu = some (2133 / 100) :=
  fetch_failure_returns_backup Net.netError ⟨PyErr.networkError, rfl⟩

end Cobe

/-! ## Remote-format parsing: column extraction -/

namespace Cobe

theorem isCommentLine_stripComment {l : String} (h : isCommentLine l = true) :
    tokenize (stripComment l.data) = [] := by
  cases hd : l.data with
  | nil => unfold isCommentLine at h; rw [hd] at h; simp at h
  | cons c cs =>
    unfold isCommentLine at h; rw [hd] at h
    simp at h
    subst h
    have hs : stripComment ('#' :: cs) = [] := by simp [stripComment]
    rw [hs]
    rfl

theorem parseRow5_some {ts : List (List Char)} {o : Obs} (h : parseRow5 ts = some o) :
    ∃ t0 t1 t2 t3 t4, ts = [t0, t1, t2, t3, t4] ∧
      parseNum t0 = some o.nu ∧ parseNum t1 = some o.I ∧ parseNum t3 = some o.sigma := by
  rcases ts with _ | ⟨t0, _ | ⟨t1, _ | ⟨t2, _ | ⟨t3, _ | ⟨t4, _ | ⟨t5, rest⟩⟩⟩⟩⟩⟩
  · simp [parseRow5] at h
  · simp [parseRow5] at h
  · simp [parseRow5] at h
  · simp [parseRow5] at h
  · simp [parseRow5] at h
  · cases h0 : parseNum t0 with
    | none => simp [parseRow5, h0] at h
    | some q0 =>
      cases h1 : parseNum t1 with
      | none => simp [parseRow5, h0, h1] at h
      | some q1 =>
        cases h3 : parseNum t3 with
        | none => simp [parseRow5, h0, h1, h3] at h
        | some q3 =>
          simp only [parseRow5, h0, h1, h3, Option.some.injEq] at h
          subst h
          exact ⟨t0, t1, t2, t3, t4, rfl, h0, h1, h3⟩
  · simp [parseRow5] at h

/-- C2: for every remote body in the documented whitespace-delimited
five-column format (each line either `#`-prefixed or a five-column numeric
row), the ingestion parse succeeds, skips the comment-prefixed lines, and
produces exactly one record per non-comment row, in the original order,
whose fields are the parsed columns 1, 2 and 4 of the five-column layout
(frequency, intensity, uncertainty). -/
theorem parse5col_extracts_columns (lines : List String)
    (hv : ∀ l ∈ lines, isCommentLine l = true ∨ isDataLine5 l = true) :
    ∃ tbl, parse5col lines = some tbl ∧
      List.Forall₂ RowRel (lines.filter (fun l => !(isCommentLine l))) tbl := by
  induction lines with
  | nil => exact ⟨[], rfl, List.Forall₂.nil⟩
  | cons l rest ih =>
    obtain ⟨tbl, hp, hf⟩ := ih (fun x hx => hv x (List.mem_cons_of_mem _ hx))
    rcases hv l (List.mem_cons_self l rest) with hc | hd
    · have htk : tokenize (stripComment l.data) = [] := isCommentLine_stripComment hc
      refine ⟨tbl, ?_, ?_⟩
      · simp [parse5col, htk, hp]
      · simp [List.filter_cons, hc, hf]
    · unfold isDataLine5 at hd
      rw [Option.isSome_iff_exists] at hd
      obtain ⟨o, ho⟩ := hd
      obtain ⟨t0, t1, t2, t3, t4, htoks, h0, h1, h3⟩ := parseRow5_some ho
      have hnc : isCommentLine l = false := by
        cases hci : isCommentLine l with
        | false => rfl
        | true => rw [isCommentLine_stripComment hci] at htoks; simp at htoks
      refine ⟨o :: tbl, ?_, ?_⟩
      · have ho' : parseRow5 [t0, t1, t2, t3, t4] = some o := htoks ▸ ho
        simp [parse5col, htoks, ho', hp]
      · simp only [List.filter_cons, hnc, Bool.not_false, if_pos]
        exact List.Forall₂.cons ⟨t0, t1, t2, t3, t4, htoks, h0, h1, h3⟩ hf

/-- C2 witness: the parsing theorem applied to a concrete two-row body with
a comment header. -/
theorem parse5col_extracts_columns_witness :
    ∃ tbl, parse5col sampleBody = some tbl ∧
      List.Forall₂ RowRel (sampleBody.filter (fun l => !(isCommentLine l))) tbl :=
  parse5col_extracts_columns sampleBody (by decide)

end Cobe

/-! ## Pipeline rescaling, Planck model, fit error propagation -/

namespace Cobe

/-- C4: the uncertainty passed to the fitter is the raw parsed column-4
value divided by 1000, for every observation: the `sigma_data` array built
by `run_pipeline` has one entry per record, equal to that record's `sigma`
divided by 1000 (kJy/sr converted into the MJy/sr intensity unit). -/
theorem pipeline_sigma_rescaled (df : List Obs) (i : ℕ) (hi : i < df.length) :
    ∃ h : i < (pipeline_sigma df).length,
      (pipeline_sigma df).get ⟨i, h⟩ = (df.get ⟨i, hi⟩).sigma / 1000 := by
  refine ⟨by simpa [pipeline_sigma] using hi, ?_⟩
  simp [pipeline_sigma, List.get_eq_getElem, List.getElem_map]

/-- C4 witness: the rescaling at the first row of the backup table. -/
theorem pipeline_sigma_rescaled_witness :
    ∃ h : 0 < (pipeline_sigma backupTable).length,
      (pipeline_sigma backupTable).get ⟨0, h⟩ =
        (backupTable.get ⟨0, by decide⟩).sigma / 1000 :=
  pipeline_sigma_rescaled backupTable 0 (by decide)

/-- C5: at every frequency where the `expm1` denominator overflows to
infinity or evaluates to exactly zero (and is therefore substituted by
infinity by the guard), `planck_law` returns the finite intensity zero
instead of raising: overflow is suppressed by `np.errstate(over='ignore')`
and the zero denominator by the guard assignment. -/
theorem planck_law_degenerate_denominator (f : ℚ → NVal) (nu T A : ℚ)
    (h : f (planck_exponent nu T) = NVal.inf ∨ f (planck_exponent nu T) = NVal.fin 0) :
    planck_law f (PyVal.array [nu]) T A = Except.ok (PyVal.array [0]) := by
  rcases h with h | h <;> simp [planck_law, planck_point, h, denom_subst, nval_div]

/-- C5 witness: an `expm1` primitive that overflows at every exponent. -/
theorem planck_law_degenerate_denominator_witness :
    planck_law (fun _ => NVal.inf) (PyVal.array [1]) 1 1 = Except.ok (PyVal.array [0]) :=
  planck_law_degenerate_denominator (fun _ => NVal.inf) 1 1 1 (Or.inl rfl)

/-- C6: for every array of frequencies and positive temperature, evaluating
`planck_law` with amplitude `A = 0` yields zero intensity at every
frequency, whatever the `expm1` primitive does. -/
theorem planck_law_zero_amplitude (f : ℚ → NVal) (nus : List ℚ) (T : ℚ)
    (_hT : 0 < T) :
    planck_law f (PyVal.array nus) T 0 =
      Except.ok (PyVal.array (List.replicate nus.length 0)) := by
  have hpt : ∀ x : ℚ, planck_point f x T 0 = 0 := by
    intro x
    unfold planck_point
    cases denom_subst (f (planck_exponent x T)) with
    | fin q => simp [nval_div]
    | inf => simp [nval_div]
  simp [planck_law, hpt]

/-- C6 witness: zero amplitude on a concrete two-frequency array. -/
theorem planck_law_zero_amplitude_witness :
    planck_law (fun _ => NVal.fin 1) (PyVal.array [1, 2]) 1 0 =
      Except.ok (PyVal.array (List.replicate ([1, 2] : List ℚ).length 0)) :=
  planck_law_zero_amplitude (fun _ => NVal.fin 1) [1, 2] 1 (by norm_num)

/-- C10: `planck_law` is usable only on array-valued frequency input: for
every scalar input the guard line (an item assignment into the denominator,
unsupported by a numpy scalar) raises `TypeError` instead of returning an
intensity, while every array input returns an intensity array. -/
theorem planck_law_scalar_type_error (f : ℚ → NVal) (T A : ℚ) :
    (∀ x : ℚ, planck_law f (PyVal.scalar x) T A = Except.error PyErr.typeError) ∧
    (∀ xs : List ℚ, ∃ ys, planck_law f (PyVal.array xs) T A = Except.ok (PyVal.array ys)) :=
  ⟨fun _ => rfl, fun xs => ⟨xs.map (fun x => planck_point f x T A), rfl⟩⟩

/-- C8 counterexample: a `curve_fit` outcome with a singular covariance
(scipy returns parameters with `pcov` filled with `inf` and only warns)
does not abort `run_pipeline`: the run completes and reports the fitted
parameters with an infinite covariance diagonal, contradicting the claim
that a singular covariance is a terminal error. -/
theorem run_pipeline_singular_not_terminal :
    run_pipeline cfSingular Net.netError =
      Except.ok ⟨27 / 10, 1e-15, (NVal.inf, NVal.inf)⟩ := by
  simp [run_pipeline, fetch_netError_eq, cfSingular]

/-- C8 (amended): whatever `curve_fit` does on the fit inputs,
`run_pipeline` propagates it unchanged: if the solver fails to converge
(`curve_fit` raises), the error propagates as a terminal error with no
recovery and no fallback parameters; if `curve_fit` returns — including
with a singular (infinite) covariance — the run reports those fitted
parameters rather than aborting. -/
theorem run_pipeline_error_propagation :
    (∀ (cf : FitFn) (net : Net) (df : List Obs) (e : PyErr),
        fetch_cobe_data net = Except.ok df →
        cf (df.map (fun o => o.nu)) (df.map (fun o => o.I)) (pipeline_sigma df)
            (3, 1e-15) = Except.error e →
        run_pipeline cf net = Except.error e) ∧
    (∀ (cf : FitFn) (net : Net) (df : List Obs) (out : FitOutput),
        fetch_cobe_data net = Except.ok df →
        cf (df.map (fun o => o.nu)) (df.map (fun o => o.I)) (pipeline_sigma df)
            (3, 1e-15) = Except.ok out →
        run_pipeline cf net = Except.ok ⟨out.popt.1, out.popt.2, out.pcovDiag⟩) := by
  constructor <;> intro cf net df z hfetch hcf <;> simp [run_pipeline, hfetch, hcf]

/-- C8 witness: both propagation directions at concrete solver behaviours
over the backup table. -/
theorem run_pipeline_error_propagation_witness :
    run_pipeline cfNoConverge Net.netError = Except.error PyErr.runtimeError ∧
    run_pipeline cfConverged Net.netError =
      Except.ok ⟨27 / 10, 1e-15, (NVal.fin 1, NVal.fin 1)⟩ :=
  ⟨run_pipeline_error_propagation.1 cfNoConverge Net.netError backupTable
      PyErr.runtimeError fetch_netError_eq rfl,
   run_pipeline_error_propagation.2 cfConverged Net.netError backupTable
      ⟨(27 / 10, 1e-15), (NVal.fin 1, NVal.fin 1)⟩ fetch_netError_eq rfl⟩

end Cobe

/-! ## Random walk invariants -/

namespace RandomWalk

theorem cumsumAux_length (l : List ℤ) : ∀ acc : ℤ, (cumsumAux acc l).length = l.length := by
  induction l with
  | nil => intro acc; rfl
  | cons a rest ih => intro acc; simp [cumsumAux, ih]

theorem cumsumAux_get_succ (l : List ℤ) : ∀ (acc : ℤ) (i : ℕ) (hi : i < l.length)
    (h1 : i + 1 < (acc :: cumsumAux acc l).length) (h2 : i < (acc :: cumsumAux acc l).length),
    (acc :: cumsumAux acc l).get ⟨i + 1, h1⟩ =
      (acc :: cumsumAux acc l).get ⟨i, h2⟩ + l.get ⟨i, hi⟩ := by
  induction l with
  | nil => intro acc i hi _ _; simp at hi
  | cons a rest ih =>
    intro acc i hi h1 h2
    cases i with
    | zero => simp [cumsumAux, List.get_eq_getElem]
    | succ j =>
      have hj : j < rest.length := Nat.lt_of_succ_lt_succ (by simpa using hi)
      have hlen : (cumsumAux (acc + a) rest).length = rest.length :=
        cumsumAux_length rest (acc + a)
      have h1' : j + 1 < ((acc + a) :: cumsumAux (acc + a) rest).length := by
        simp [hlen]; omega
      have h2' : j < ((acc + a) :: cumsumAux (acc + a) rest).length := by
        simp [hlen]; omega
      have := ih (acc + a) j hj h1' h2'
      simp only [cumsumAux, List.get_eq_getElem, List.getElem_cons_succ] at this ⊢
      exact this

theorem walk_coord_step (l : List ℤ) (i : ℕ) (hi : i < l.length)
    (h1 : i + 1 < (0 :: cumsumAux 0 l).length) (h2 : i < (0 :: cumsumAux 0 l).length) :
    (0 :: cumsumAux 0 l).get ⟨i + 1, h1⟩ - (0 :: cumsumAux 0 l).get ⟨i, h2⟩ =
      l.get ⟨i, hi⟩ := by
  rw [cumsumAux_get_succ l 0 i hi h1 h2]
  ring

theorem options_step : ∀ c : Fin 4,
    |(options.get ⟨c.1, c.2⟩).1| + |(options.get ⟨c.1, c.2⟩).2| = 1 := by decide

/-- C9: for every sequence of `n` step choices, the walk's two coordinate
arrays both have length `n + 1`, both start at the origin, and every
consecutive pair of positions differs by a unit move: exactly one
coordinate changes, by exactly 1 in absolute value. -/
theorem simulate_random_walk_invariants (choices : List (Fin 4)) :
    ((simulate_random_walk choices).1.length = choices.length + 1 ∧
     (simulate_random_walk choices).2.length = choices.length + 1) ∧
    ((simulate_random_walk choices).1.head? = some 0 ∧
     (simulate_random_walk choices).2.head? = some 0) ∧
    ∀ (i : ℕ) (h1 : i + 1 < (simulate_random_walk choices).1.length)
      (h2 : i + 1 < (simulate_random_walk choices).2.length),
      |(simulate_random_walk choices).1.get ⟨i + 1, h1⟩ -
        (simulate_random_walk choices).1.get ⟨i, Nat.lt_of_succ_lt h1⟩| +
      |(simulate_random_walk choices).2.get ⟨i + 1, h2⟩ -
        (simulate_random_walk choices).2.get ⟨i, Nat.lt_of_succ_lt h2⟩| = 1 := by
  have hx : (simulate_random_walk choices).1 =
      0 :: cumsumAux 0 ((choices.map (fun i => options.get ⟨i.1, i.2⟩)).map Prod.fst) := rfl
  have hy : (simulate_random_walk choices).2 =
      0 :: cumsumAux 0 ((choices.map (fun i => options.get ⟨i.1, i.2⟩)).map Prod.snd) := rfl
  refine ⟨⟨?_, ?_⟩, ⟨?_, ?_⟩, ?_⟩
  · simp [hx, cumsumAux_length]
  · simp [hy, cumsumAux_length]
  · simp [hx]
  · simp [hy]
  · intro i h1 h2
    have hi : i < choices.length := by
      have h1x := h1
      rw [hx] at h1x
      simpa [cumsumAux_length] using h1x
    have hix : i < ((choices.map (fun i => options.get ⟨i.1, i.2⟩)).map Prod.fst).length := by
      simpa using hi
    have hiy : i < ((choices.map (fun i => options.get ⟨i.1, i.2⟩)).map Prod.snd).length := by
      simpa using hi
    have e1 : (simulate_random_walk choices).1.get ⟨i + 1, h1⟩ -
        (simulate_random_walk choices).1.get ⟨i, Nat.lt_of_succ_lt h1⟩ =
        ((choices.map (fun i => options.get ⟨i.1, i.2⟩)).map Prod.fst).get ⟨i, hix⟩ :=
      walk_coord_step _ i hix h1 (Nat.lt_of_succ_lt h1)
    have e2 : (simulate_random_walk choices).2.get ⟨i + 1, h2⟩ -
        (simulate_random_walk choices).2.get ⟨i, Nat.lt_of_succ_lt h2⟩ =
        ((choices.map (fun i => options.get ⟨i.1, i.2⟩)).map Prod.snd).get ⟨i, hiy⟩ :=
      walk_coord_step _ i hiy h2 (Nat.lt_of_succ_lt h2)
    rw [e1, e2]
    simp only [List.get_eq_getElem, List.getElem_map]
    exact options_step (choices.get ⟨i, hi⟩)

/-- C9 witness: the step invariant at a one-step walk moving right. -/
theorem simulate_random_walk_invariants_witness :
    |(simulate_random_walk [(2 : Fin 4)]).1.get ⟨1, by decide⟩ -
      (simulate_random_walk [(2 : Fin 4)]).1.get ⟨0, by decide⟩| +
    |(simulate_random_walk [(2 : Fin 4)]).2.get ⟨1, by decide⟩ -
      (simulate_random_walk [(2 : Fin 4)]).2.get ⟨0, by decide⟩| = 1 :=
  (simulate_random_walk_invariants [(2 : Fin 4)]).2.2 0 (by decide) (by decide)

end RandomWalk
